import Mathlib

/-!
Verification of the reboundx ephemeris-forces core against its design
specification.  The C sources (jpl_work, jpl_calc, the per-body resolver
functions, ephem, ast_ephem and rebx_ephemeris_forces) are shallowly
embedded below with double arithmetic modelled by the real numbers; the
memory-mapped ephemeris file is modelled as a function from byte offsets
to the double stored there, and C out-parameters are modelled by passing
the previous value in and returning the (possibly unchanged) new value.
-/

namespace EphemForces

noncomputable section

open scoped BigOperators

/-- C cast of a double to an integer type: truncation toward zero. -/
def ctrunc (r : ℝ) : ℤ := if 0 ≤ r then ⌊r⌋ else ⌈r⌉

/-- C fmod: x - trunc(x/y)*y, the remainder with the sign of x. -/
def cfmod (x y : ℝ) : ℝ := x - y * (ctrunc (x / y) : ℝ)

/-- Machine epsilon of an IEEE-754 double, the value of DBL_EPSILON. -/
def DBL_EPSILON : ℝ := 1 / 2 ^ 52

/-- Chebyshev polynomial sequence filled into the array T by jpl_work:
T[0]=1, T[1]=x, T[p]=2x*T[p-1]-T[p-2]. -/
def chebT (x : ℝ) : ℕ → ℝ
  | 0 => 1
  | 1 => x
  | p + 2 => 2 * x * chebT x (p + 1) - chebT x p

/-- Derivative sequence filled into the array S by jpl_work:
S[0]=0, S[1]=1, S[p]=2x*S[p-1]+2T[p-1]-S[p-2]. -/
def chebS (x : ℝ) : ℕ → ℝ
  | 0 => 0
  | 1 => 1
  | p + 2 => 2 * x * chebS x (p + 1) + 2 * chebT x (p + 1) - chebS x p

/-- Embedding of jpl_work.  P is the coefficient array (indexed in
doubles from the pointer passed in), ncm the component count, ncf the
coefficients per component, niv the sub-interval count, t0 the
fractional time within the record and t1 the record span in days.
Returns the per-component position and velocity accumulators u and v. -/
def jpl_work (P : ℕ → ℝ) (ncm ncf niv : ℕ) (t0 t1 : ℝ) : (ℕ → ℝ) × (ℕ → ℝ) :=
  let t : ℝ := t0 * (niv : ℝ)
  let x : ℝ := 2 * cfmod t 1 - 1
  let c : ℝ := ((niv : ℝ) * 2) / t1 / 86400
  let b : ℕ := (ctrunc t).toNat
  (fun m => (List.range ncf).foldl (fun a p => a + chebT x p * P (ncf * (m + b * ncm) + p)) 0,
   fun m => (List.range ncf).foldl (fun a p => a + chebS x p * P (ncf * (m + b * ncm) + p) * c) 0)

lemma ctrunc_eq_floor {r : ℝ} (h : 0 ≤ r) : ctrunc r = ⌊r⌋ := if_pos h

lemma cfmod_one_eq_fract {t : ℝ} (h : 0 ≤ t) : cfmod t 1 = Int.fract t := by
  rw [cfmod, div_one, ctrunc_eq_floor h, one_mul, Int.fract]

lemma foldl_add_range (f : ℕ → ℝ) : ∀ n : ℕ,
    (List.range n).foldl (fun a p => a + f p) 0 = ∑ p in Finset.range n, f p := by
  intro n
  induction n with
  | zero => simp
  | succ n ih => simp [List.range_succ, List.foldl_append, ih, Finset.sum_range_succ]

/-- Claim C3: for every coefficient block, component count, coefficient
count at least 2, interval count and fractional record time t0 in [0,1),
jpl_work rescales t0 into the correct sub-interval b = floor(t0*niv),
producing the normalized variable x = 2*fract(t0*niv)-1 in [-1,1], and
returns position component m = sum of T[p]*coefficient[p] and velocity
component m = (sum of S[p]*coefficient[p]) * (2*niv / recordSpanSeconds),
where the coefficients for component m start at index ncf*(m + b*ncm)
and the record span in seconds is t1*86400. -/
theorem jpl_work_cheb_eval (P : ℕ → ℝ) (ncm ncf niv : ℕ) (t0 t1 : ℝ)
    (h0 : 0 ≤ t0) (h1 : t0 < 1) (hncf : 2 ≤ ncf) (m : ℕ) (hm : m < ncm) :
    (-1 ≤ 2 * Int.fract (t0 * (niv : ℝ)) - 1 ∧ 2 * Int.fract (t0 * (niv : ℝ)) - 1 ≤ 1) ∧
    (jpl_work P ncm ncf niv t0 t1).1 m =
      ∑ p in Finset.range ncf, chebT (2 * Int.fract (t0 * (niv : ℝ)) - 1) p *
        P (ncf * (m + (⌊t0 * (niv : ℝ)⌋).toNat * ncm) + p) ∧
    (jpl_work P ncm ncf niv t0 t1).2 m =
      (∑ p in Finset.range ncf, chebS (2 * Int.fract (t0 * (niv : ℝ)) - 1) p *
        P (ncf * (m + (⌊t0 * (niv : ℝ)⌋).toNat * ncm) + p)) *
      (2 * (niv : ℝ) / (t1 * 86400)) := by
  have ht : 0 ≤ t0 * (niv : ℝ) := mul_nonneg h0 (Nat.cast_nonneg niv)
  have hfr : cfmod (t0 * (niv : ℝ)) 1 = Int.fract (t0 * (niv : ℝ)) := cfmod_one_eq_fract ht
  have hb : (ctrunc (t0 * (niv : ℝ))).toNat = (⌊t0 * (niv : ℝ)⌋).toNat := by
    rw [ctrunc_eq_floor ht]
  have hcc : ((niv : ℝ) * 2) / t1 / 86400 = 2 * (niv : ℝ) / (t1 * 86400) := by
    rw [div_div, mul_comm]
  refine ⟨⟨?_, ?_⟩, ?_, ?_⟩
  · have := Int.fract_nonneg (t0 * (niv : ℝ))
    linarith
  · have := Int.fract_lt_one (t0 * (niv : ℝ))
    linarith
  · simp only [jpl_work, hfr, hb, foldl_add_range]
  · simp only [jpl_work, hfr, hb, hcc,
      foldl_add_range (fun p => chebS (2 * Int.fract (t0 * (niv : ℝ)) - 1) p *
        P (ncf * (m + (⌊t0 * (niv : ℝ)⌋).toNat * ncm) + p) * (2 * (niv : ℝ) / (t1 * 86400)))]
    rw [← Finset.sum_mul]

/-- Witness for C3 at a concrete block: ncm = 3, ncf = 4, niv = 2,
t0 = 1/4, t1 = 1, coefficients P k = k. -/
theorem jpl_work_cheb_eval_witness :
    (jpl_work (fun k : ℕ => (k : ℝ)) 3 4 2 (1 / 4) 1).1 0 =
      ∑ p in Finset.range 4, chebT (2 * Int.fract ((1 / 4 : ℝ) * ((2 : ℕ) : ℝ)) - 1) p *
        ((4 * (0 + (⌊(1 / 4 : ℝ) * ((2 : ℕ) : ℝ)⌋).toNat * 3) + p : ℕ) : ℝ) :=
  (jpl_work_cheb_eval (fun k : ℕ => (k : ℝ)) 3 4 2 (1 / 4) 1
    (by norm_num) (by norm_num) (by norm_num) 0 (by norm_num)).2.1

/-- Position or velocity triple, the model of a C double[3] array. -/
abbrev Vec3 := Fin 3 → ℝ

/-- Embedding of vecpos_off: u[k] += v[k] * w componentwise. -/
def vecpos_off (u v : Vec3) (w : ℝ) : Vec3 := fun k => u k + v k * w

/-- Embedding of vecpos_nul: the all-zero triple. -/
def vecpos_nul : Vec3 := fun _ => 0

/-- Embedding of vecpos_div: u[k] /= w componentwise. -/
def vecpos_div (u : Vec3) (w : ℝ) : Vec3 := fun k => u k / w

/-- Embedding of struct _jpl_s.  The memory mapping is a function from
byte offset to the double stored there, or none when mapping failed.
The record size rec_ is in bytes, as in the source. -/
structure Jpl where
  beg : ℝ
  end_ : ℝ
  inc : ℝ
  cau : ℝ
  cem : ℝ
  off : Fin 15 → ℕ
  ncf : Fin 15 → ℕ
  niv : Fin 15 → ℕ
  ncm : Fin 15 → ℕ
  rec_ : ℕ
  map : Option (ℕ → ℝ)

def JPL_MER : Fin 15 := 0
def JPL_VEN : Fin 15 := 1
def JPL_EMB : Fin 15 := 2
def JPL_MAR : Fin 15 := 3
def JPL_JUP : Fin 15 := 4
def JPL_SAT : Fin 15 := 5
def JPL_URA : Fin 15 := 6
def JPL_NEP : Fin 15 := 7
def JPL_PLU : Fin 15 := 8
def JPL_LUN : Fin 15 := 9
def JPL_SUN : Fin 15 := 10
def JPL_NUT : Fin 15 := 11
def JPL_LIB : Fin 15 := 12
def JPL_MAN : Fin 15 := 13
def JPL_TDB : Fin 15 := 14

/-- Common shape of the raw per-body resolvers: call jpl_work on the
block at the body's offset with its component/coefficient/interval
triple and the record span jpl.inc. -/
def bodyWork (jpl : Jpl) (z : ℕ → ℝ) (idx : Fin 15) (t : ℝ) : Vec3 × Vec3 :=
  let w := jpl_work (fun k => z (jpl.off idx + k)) (jpl.ncm idx) (jpl.ncf idx) (jpl.niv idx) t jpl.inc
  (fun k => w.1 (k : ℕ), fun k => w.2 (k : ℕ))

/-- Embedding of _bar: the barycenter entry is the all-zero state. -/
def _bar (_ : Jpl) (_ : ℕ → ℝ) (_ : ℝ) : Vec3 × Vec3 := (vecpos_nul, vecpos_nul)

def _sun (jpl : Jpl) (z : ℕ → ℝ) (t : ℝ) : Vec3 × Vec3 := bodyWork jpl z JPL_SUN t

def _emb (jpl : Jpl) (z : ℕ → ℝ) (t : ℝ) : Vec3 × Vec3 := bodyWork jpl z JPL_EMB t

def _mer (jpl : Jpl) (z : ℕ → ℝ) (t : ℝ) : Vec3 × Vec3 := bodyWork jpl z JPL_MER t

def _ven (jpl : Jpl) (z : ℕ → ℝ) (t : ℝ) : Vec3 × Vec3 := bodyWork jpl z JPL_VEN t

def _mar (jpl : Jpl) (z : ℕ → ℝ) (t : ℝ) : Vec3 × Vec3 := bodyWork jpl z JPL_MAR t

def _jup (jpl : Jpl) (z : ℕ → ℝ) (t : ℝ) : Vec3 × Vec3 := bodyWork jpl z JPL_JUP t

def _sat (jpl : Jpl) (z : ℕ → ℝ) (t : ℝ) : Vec3 × Vec3 := bodyWork jpl z JPL_SAT t

def _ura (jpl : Jpl) (z : ℕ → ℝ) (t : ℝ) : Vec3 × Vec3 := bodyWork jpl z JPL_URA t

def _nep (jpl : Jpl) (z : ℕ → ℝ) (t : ℝ) : Vec3 × Vec3 := bodyWork jpl z JPL_NEP t

def _plu (jpl : Jpl) (z : ℕ → ℝ) (t : ℝ) : Vec3 × Vec3 := bodyWork jpl z JPL_PLU t

/-- Embedding of _ear: Earth from the EMB and geocentric lunar entries,
position and velocity offset by the lunar entry times -1/(1+cem). -/
def _ear (jpl : Jpl) (z : ℕ → ℝ) (t : ℝ) : Vec3 × Vec3 :=
  let emb := bodyWork jpl z JPL_EMB t
  let lun := bodyWork jpl z JPL_LUN t
  (vecpos_off emb.1 lun.1 (-1 / (1 + jpl.cem)), vecpos_off emb.2 lun.2 (-1 / (1 + jpl.cem)))

/-- Embedding of _lun: Moon from the EMB and geocentric lunar entries,
position and velocity offset by the lunar entry times cem/(1+cem). -/
def _lun (jpl : Jpl) (z : ℕ → ℝ) (t : ℝ) : Vec3 × Vec3 :=
  let emb := bodyWork jpl z JPL_EMB t
  let lun := bodyWork jpl z JPL_LUN t
  (vecpos_off emb.1 lun.1 (jpl.cem / (1 + jpl.cem)), vecpos_off emb.2 lun.2 (jpl.cem / (1 + jpl.cem)))

/-- Embedding of the _help dispatch table indexed by the PLAN body
codes: bar, sun, ear, emb, lun, mer, ven, mar, jup, sat, ura, nep, plu. -/
def _help (n : Fin 13) : Jpl → (ℕ → ℝ) → ℝ → Vec3 × Vec3 :=
  match n with
  | ⟨0, _⟩ => _bar
  | ⟨1, _⟩ => _sun
  | ⟨2, _⟩ => _ear
  | ⟨3, _⟩ => _emb
  | ⟨4, _⟩ => _lun
  | ⟨5, _⟩ => _mer
  | ⟨6, _⟩ => _ven
  | ⟨7, _⟩ => _mar
  | ⟨8, _⟩ => _jup
  | ⟨9, _⟩ => _sat
  | ⟨10, _⟩ => _ura
  | ⟨11, _⟩ => _nep
  | ⟨12, _⟩ => _plu
  | ⟨k + 13, h⟩ => absurd h (by omega)

/-- Embedding of struct mpos_s. -/
structure mpos where
  u : Vec3
  v : Vec3
  jde : ℝ

/-- Embedding of jpl_calc.  The out-parameter now is passed in and
returned, so an early error return leaves it unchanged. -/
def jpl_calc (pl : Option Jpl) (now : mpos) (jde : ℝ) (n m : Fin 13) : ℤ × mpos :=
  match pl with
  | none => (-1, now)
  | some pl =>
    match pl.map with
    | none => (-1, now)
    | some mp =>
      if jde < pl.beg ∨ pl.end_ < jde then (-1, now)
      else
        let blk : ℕ := (ctrunc ((jde - pl.beg) / pl.inc)).toNat
        let t : ℝ := cfmod (jde - pl.beg) pl.inc / pl.inc
        let z : ℕ → ℝ := fun k => mp ((blk + 2) * pl.rec_ + 8 * k)
        let pos := _help n pl z t
        let ref := _help m pl z t
        (0, ⟨fun k => pos.1 k - ref.1 k, fun k => pos.2 k - ref.2 k, jde⟩)

/-- Claim C4: for every epoch, _ear derives Earth from the EMB and
geocentric lunar entries as EMB - Moon*(1/(1+mu)) and _lun derives the
Moon as EMB + Moon*(mu/(1+mu)), for position and velocity alike, with
mu the Earth/Moon mass ratio cem. -/
theorem ear_lun_from_emb (jpl : Jpl) (z : ℕ → ℝ) (t : ℝ) (k : Fin 3) :
    (_ear jpl z t).1 k =
      (bodyWork jpl z JPL_EMB t).1 k - (bodyWork jpl z JPL_LUN t).1 k * (1 / (1 + jpl.cem)) ∧
    (_ear jpl z t).2 k =
      (bodyWork jpl z JPL_EMB t).2 k - (bodyWork jpl z JPL_LUN t).2 k * (1 / (1 + jpl.cem)) ∧
    (_lun jpl z t).1 k =
      (bodyWork jpl z JPL_EMB t).1 k + (bodyWork jpl z JPL_LUN t).1 k * (jpl.cem / (1 + jpl.cem)) ∧
    (_lun jpl z t).2 k =
      (bodyWork jpl z JPL_EMB t).2 k + (bodyWork jpl z JPL_LUN t).2 k * (jpl.cem / (1 + jpl.cem)) := by
  refine ⟨?_, ?_, ?_, ?_⟩ <;> simp [_ear, _lun, vecpos_off] <;> ring

/-- Claim C5: the Earth and Moon states produced by _ear and _lun,
recombined with weights mu/(1+mu) and 1/(1+mu), reproduce the original
Earth-Moon-barycenter state exactly, in position and velocity. -/
theorem emb_roundtrip (jpl : Jpl) (z : ℕ → ℝ) (t : ℝ) (h : 1 + jpl.cem ≠ 0) (k : Fin 3) :
    jpl.cem / (1 + jpl.cem) * (_ear jpl z t).1 k + 1 / (1 + jpl.cem) * (_lun jpl z t).1 k =
      (bodyWork jpl z JPL_EMB t).1 k ∧
    jpl.cem / (1 + jpl.cem) * (_ear jpl z t).2 k + 1 / (1 + jpl.cem) * (_lun jpl z t).2 k =
      (bodyWork jpl z JPL_EMB t).2 k := by
  constructor <;> simp [_ear, _lun, vecpos_off] <;> field_simp <;> ring

/-- Concrete ephemeris handle used by the witnesses. -/
def jplTest : Jpl :=
  ⟨0, 100, 1, 1, 1, fun _ => 0, fun _ => 4, fun _ => 1, fun _ => 3, 8, some fun _ => 0⟩

/-- Concrete mpos value used by the witnesses. -/
def nowTest : mpos := ⟨fun _ => 0, fun _ => 0, 0⟩

/-- Witness for C5 at the concrete handle jplTest (mass ratio 1). -/
theorem emb_roundtrip_witness :
    (1 : ℝ) + jplTest.cem ≠ 0 ∧
    jplTest.cem / (1 + jplTest.cem) * (_ear jplTest (fun _ => 0) 0).1 0 +
        1 / (1 + jplTest.cem) * (_lun jplTest (fun _ => 0) 0).1 0 =
      (bodyWork jplTest (fun _ => 0) JPL_EMB 0).1 0 :=
  ⟨by norm_num [jplTest], (emb_roundtrip jplTest (fun _ => 0) 0 (by norm_num [jplTest]) 0).1⟩

/-- Record index of an in-range epoch: floor((jde - beg) / inc). -/
def recordIndex (jpl : Jpl) (jde : ℝ) : ℕ := (⌊(jde - jpl.beg) / jpl.inc⌋).toNat

/-- Coefficient block of an in-range epoch: the doubles starting at
byte offset (recordIndex + 2) * rec into the mapping. -/
def blockAt (jpl : Jpl) (mp : ℕ → ℝ) (jde : ℝ) : ℕ → ℝ :=
  fun j => mp ((recordIndex jpl jde + 2) * jpl.rec_ + 8 * j)

/-- Intra-record fractional time of an in-range epoch:
fmod(jde - beg, inc) / inc. -/
def fracTime (jpl : Jpl) (jde : ℝ) : ℝ := cfmod (jde - jpl.beg) jpl.inc / jpl.inc

lemma jpl_calc_inrange (jpl : Jpl) (now : mpos) (jde : ℝ) (n m : Fin 13) (mp : ℕ → ℝ)
    (hmp : jpl.map = some mp) (h1 : jpl.beg ≤ jde) (h2 : jde ≤ jpl.end_) (h3 : 0 < jpl.inc) :
    jpl_calc (some jpl) now jde n m =
      (0, ⟨fun k => (_help n jpl (blockAt jpl mp jde) (fracTime jpl jde)).1 k -
                    (_help m jpl (blockAt jpl mp jde) (fracTime jpl jde)).1 k,
           fun k => (_help n jpl (blockAt jpl mp jde) (fracTime jpl jde)).2 k -
                    (_help m jpl (blockAt jpl mp jde) (fracTime jpl jde)).2 k,
           jde⟩) := by
  have hq : (0 : ℝ) ≤ (jde - jpl.beg) / jpl.inc :=
    div_nonneg (by linarith) h3.le
  have hnot : ¬ (jde < jpl.beg ∨ jpl.end_ < jde) := by
    push_neg
    exact ⟨h1, h2⟩
  simp only [jpl_calc, hmp, if_neg hnot, ctrunc_eq_floor hq]
  rfl

/-- Claim C8: for every epoch strictly outside [beg, end] jpl_calc
returns -1 and leaves the caller's state untouched, for every pair of
body indices; for every epoch inside the range it computes the record
index floor((jde-beg)/inc), the fractional time fmod(jde-beg, inc)/inc,
reads the coefficient block at byte offset (recordIndex+2)*rec into the
mapping, and returns the dispatched body state minus the reference body
state at that block and time. -/
theorem jpl_calc_lookup (jpl : Jpl) (now : mpos) (jde : ℝ) (n m : Fin 13) :
    ((jde < jpl.beg ∨ jpl.end_ < jde) → jpl_calc (some jpl) now jde n m = (-1, now)) ∧
    (∀ mp : ℕ → ℝ, jpl.map = some mp → jpl.beg ≤ jde → jde ≤ jpl.end_ → 0 < jpl.inc →
      jpl_calc (some jpl) now jde n m =
        (0, ⟨fun k => (_help n jpl (blockAt jpl mp jde) (fracTime jpl jde)).1 k -
                      (_help m jpl (blockAt jpl mp jde) (fracTime jpl jde)).1 k,
             fun k => (_help n jpl (blockAt jpl mp jde) (fracTime jpl jde)).2 k -
                      (_help m jpl (blockAt jpl mp jde) (fracTime jpl jde)).2 k,
             jde⟩)) := by
  constructor
  · intro h
    cases hmp : jpl.map with
    | none => simp [jpl_calc, hmp]
    | some mp => simp [jpl_calc, hmp, if_pos h]
  · intro mp hmp h1 h2 h3
    exact jpl_calc_inrange jpl now jde n m mp hmp h1 h2 h3

/-- Witness for C8: out-of-range epoch -1 is rejected with the state
untouched, and the in-range epoch 5 returns record 0. -/
theorem jpl_calc_lookup_witness :
    jpl_calc (some jplTest) nowTest (-1) 1 0 = (-1, nowTest) ∧
    (jpl_calc (some jplTest) nowTest 5 1 0).1 = 0 := by
  constructor
  · exact (jpl_calc_lookup jplTest nowTest (-1) 1 0).1 (by norm_num [jplTest])
  · rw [(jpl_calc_lookup jplTest nowTest 5 1 0).2 (fun _ => 0) rfl
      (by norm_num [jplTest]) (by norm_num [jplTest]) (by norm_num [jplTest])]

def PLAN_BAR : Fin 13 := 0
def PLAN_SOL : Fin 13 := 1
def PLAN_EAR : Fin 13 := 2
def PLAN_EMB : Fin 13 := 3
def PLAN_LUN : Fin 13 := 4
def PLAN_MER : Fin 13 := 5
def PLAN_VEN : Fin 13 := 6
def PLAN_MAR : Fin 13 := 7
def PLAN_JUP : Fin 13 := 8
def PLAN_SAT : Fin 13 := 9
def PLAN_URA : Fin 13 := 10
def PLAN_NEP : Fin 13 := 11
def PLAN_PLU : Fin 13 := 12

/-- The fixed table M of GM values for the 11 major bodies in ephem. -/
def Mcat : ℕ → ℝ
  | 0 => 0.295912208285591100e-3
  | 1 => 0.491248045036476000e-10
  | 2 => 0.724345233264412000e-9
  | 3 => 0.888769244512563400e-9
  | 4 => 0.109318945074237400e-10
  | 5 => 0.954954869555077000e-10
  | 6 => 0.282534584083387000e-6
  | 7 => 0.845970607324503000e-7
  | 8 => 0.129202482578296000e-7
  | 9 => 0.152435734788511000e-7
  | 10 => 0.217844105197418000e-11
  | _ => 0

/-- The out-parameter bundle (m, x, y, z, vx, vy, vz) of ephem. -/
structure EphemOut where
  m : ℝ
  x : ℝ
  y : ℝ
  z : ℝ
  vx : ℝ
  vy : ℝ
  vz : ℝ

/-- Body of one of the eleven identical branches of ephem: query the
body against the barycenter, divide positions by cau and velocities by
cau/86400, and emit the catalog mass already divided by G. -/
def ephemBranch (G : ℝ) (pl : Jpl) (now0 : mpos) (jde : ℝ) (code : Fin 13) (Mk : ℝ) :
    EphemOut :=
  let now := (jpl_calc (some pl) now0 jde code PLAN_BAR).2
  let u := vecpos_div now.u pl.cau
  let v := vecpos_div now.v (pl.cau / 86400)
  ⟨Mk / G, u 0, u 1, u 2, v 0, v 1, v 2⟩

/-- Embedding of ephem after initialization: pl is the loaded handle,
now0 the uninitialized stack mpos, prev the previous values of the
caller's out-parameters (returned unchanged by branches not taken). -/
def ephem (G : ℝ) (i : ℤ) (t : ℝ) (pl : Jpl) (now0 : mpos) (prev : EphemOut) : EphemOut :=
  let jde := t
  let o0 := if i = 0 then ephemBranch G pl now0 jde PLAN_SOL (Mcat 0) else prev
  let o1 := if i = 1 then ephemBranch G pl now0 jde PLAN_MER (Mcat 1) else o0
  let o2 := if i = 2 then ephemBranch G pl now0 jde PLAN_VEN (Mcat 2) else o1
  let o3 := if i = 3 then ephemBranch G pl now0 jde PLAN_EAR (Mcat 3) else o2
  let o4 := if i = 4 then ephemBranch G pl now0 jde PLAN_LUN (Mcat 4) else o3
  let o5 := if i = 5 then ephemBranch G pl now0 jde PLAN_MAR (Mcat 5) else o4
  let o6 := if i = 6 then ephemBranch G pl now0 jde PLAN_JUP (Mcat 6) else o5
  let o7 := if i = 7 then ephemBranch G pl now0 jde PLAN_SAT (Mcat 7) else o6
  let o8 := if i = 8 then ephemBranch G pl now0 jde PLAN_URA (Mcat 8) else o7
  let o9 := if i = 9 then ephemBranch G pl now0 jde PLAN_NEP (Mcat 9) else o8
  let o10 := if i = 10 then ephemBranch G pl now0 jde PLAN_PLU (Mcat 10) else o9
  o10

/-- Body code queried by ephem for each user index 0..10. -/
def planOf (i : Fin 11) : Fin 13 :=
  match i with
  | ⟨0, _⟩ => PLAN_SOL
  | ⟨1, _⟩ => PLAN_MER
  | ⟨2, _⟩ => PLAN_VEN
  | ⟨3, _⟩ => PLAN_EAR
  | ⟨4, _⟩ => PLAN_LUN
  | ⟨5, _⟩ => PLAN_MAR
  | ⟨6, _⟩ => PLAN_JUP
  | ⟨7, _⟩ => PLAN_SAT
  | ⟨8, _⟩ => PLAN_URA
  | ⟨9, _⟩ => PLAN_NEP
  | ⟨10, _⟩ => PLAN_PLU
  | ⟨k + 11, h⟩ => absurd h (by omega)

/-- The fixed table M of GM values for the 16 massive asteroids. -/
def Mast : ℕ → ℝ
  | 0 => 1.400476556172344e-13
  | 1 => 3.854750187808810e-14
  | 2 => 3.104448198938713e-14
  | 3 => 1.235800787294125e-14
  | 4 => 6.343280473648602e-15
  | 5 => 5.256168678493662e-15
  | 6 => 5.198126979457498e-15
  | 7 => 4.678307418350905e-15
  | 8 => 3.617538317147937e-15
  | 9 => 3.411586826193812e-15
  | 10 => 3.180659282652541e-15
  | 11 => 2.577114127311047e-15
  | 12 => 2.531091726015068e-15
  | 13 => 2.476788101255867e-15
  | 14 => 2.295559390637462e-15
  | 15 => 2.199295173574073e-15
  | _ => 0

/-- Embedding of ast_ephem after initialization.  The opaque minor-body
kernel is the external function spkFn; an index outside 0..15 is a
fatal error (exit), modelled as none. -/
def ast_ephem (spkFn : ℤ → ℝ → Vec3) (G : ℝ) (i : ℤ) (t : ℝ) : Option (ℝ × Vec3) :=
  if i < 0 ∨ 15 < i then none
  else some (Mast i.toNat / G, spkFn i t)

/-- Claim C9: for every body index 0..10 and in-range epoch, ephem
returns the catalog GM value divided by the simulation's gravitational
constant as the mass, and the body's state minus the barycenter's
state with positions divided by the AU length scale cau and velocities
divided by cau/86400 (AU per second-per-day), converting to simulation
units (AU and AU/day). -/
theorem ephem_query_units (G t : ℝ) (pl : Jpl) (now0 : mpos) (prev : EphemOut) (i : Fin 11)
    (mp : ℕ → ℝ) (hmp : pl.map = some mp) (h1 : pl.beg ≤ t) (h2 : t ≤ pl.end_)
    (h3 : 0 < pl.inc) :
    ephem G ((i : ℕ) : ℤ) t pl now0 prev =
      ⟨Mcat (i : ℕ) / G,
       ((_help (planOf i) pl (blockAt pl mp t) (fracTime pl t)).1 0 -
        (_help PLAN_BAR pl (blockAt pl mp t) (fracTime pl t)).1 0) / pl.cau,
       ((_help (planOf i) pl (blockAt pl mp t) (fracTime pl t)).1 1 -
        (_help PLAN_BAR pl (blockAt pl mp t) (fracTime pl t)).1 1) / pl.cau,
       ((_help (planOf i) pl (blockAt pl mp t) (fracTime pl t)).1 2 -
        (_help PLAN_BAR pl (blockAt pl mp t) (fracTime pl t)).1 2) / pl.cau,
       ((_help (planOf i) pl (blockAt pl mp t) (fracTime pl t)).2 0 -
        (_help PLAN_BAR pl (blockAt pl mp t) (fracTime pl t)).2 0) / (pl.cau / 86400),
       ((_help (planOf i) pl (blockAt pl mp t) (fracTime pl t)).2 1 -
        (_help PLAN_BAR pl (blockAt pl mp t) (fracTime pl t)).2 1) / (pl.cau / 86400),
       ((_help (planOf i) pl (blockAt pl mp t) (fracTime pl t)).2 2 -
        (_help PLAN_BAR pl (blockAt pl mp t) (fracTime pl t)).2 2) / (pl.cau / 86400)⟩ := by
  have hcalc := fun code =>
    jpl_calc_inrange pl now0 t code PLAN_BAR mp hmp h1 h2 h3
  fin_cases i <;>
    simp only [ephem, ephemBranch, planOf, Fin.isValue, Fin.val_zero, Int.Nat.cast_ofNat_Int,
      Nat.cast_ofNat, Nat.cast_one, Nat.cast_zero] <;>
    norm_num [hcalc, vecpos_div]

/-- Concrete previous out-parameter values used by the witnesses. -/
def prevTest : EphemOut := ⟨101, 102, 103, 104, 105, 106, 107⟩

/-- Witness for C9: body 3 (Earth) at the in-range epoch 5 of the
concrete handle reports the catalog Earth GM divided by G = 2. -/
theorem ephem_query_units_witness :
    (ephem 2 (((3 : Fin 11) : ℕ) : ℤ) 5 jplTest nowTest prevTest).m = Mcat 3 / 2 := by
  rw [ephem_query_units 2 5 jplTest nowTest prevTest 3 (fun _ => 0) rfl
    (by norm_num [jplTest]) (by norm_num [jplTest]) (by norm_num [jplTest])]
  rfl

/-- Claim C10: ephem called with a body index outside 0..10 (such as 11
or -1) returns normally with all out-parameters untouched and no error
signalled, whereas ast_ephem with an index outside 0..15 is a fatal
error terminating the process. -/
theorem ephem_out_of_range_silent (G t : ℝ) (pl : Jpl) (now0 : mpos) (prev : EphemOut)
    (i : ℤ) (hi : i < 0 ∨ 10 < i) (spkFn : ℤ → ℝ → Vec3) (j : ℤ) (hj : j < 0 ∨ 15 < j) :
    ephem G i t pl now0 prev = prev ∧ ast_ephem spkFn G j t = none := by
  constructor
  · simp [ephem, show i ≠ 0 by omega, show i ≠ 1 by omega, show i ≠ 2 by omega,
      show i ≠ 3 by omega, show i ≠ 4 by omega, show i ≠ 5 by omega, show i ≠ 6 by omega,
      show i ≠ 7 by omega, show i ≠ 8 by omega, show i ≠ 9 by omega, show i ≠ 10 by omega]
  · rw [ast_ephem, if_pos hj]

/-- Witness for C10 at index 11 for ephem and 16 for ast_ephem. -/
theorem ephem_out_of_range_silent_witness :
    ephem 1 11 0 jplTest nowTest prevTest = prevTest ∧
    ast_ephem (fun _ _ => vecpos_nul) 1 16 0 = none :=
  ephem_out_of_range_silent 1 0 jplTest nowTest prevTest 11 (Or.inr (by norm_num))
    (fun _ _ => vecpos_nul) 16 (Or.inr (by norm_num))

/-- Embedding of struct reb_particle, restricted to the fields the
force routine reads and writes. -/
structure Particle where
  x : ℝ
  y : ℝ
  z : ℝ
  vx : ℝ
  vy : ℝ
  vz : ℝ
  ax : ℝ
  ay : ℝ
  az : ℝ

/-- Embedding of struct reb_vec3d. -/
structure RVec3 where
  x : ℝ
  y : ℝ
  z : ℝ

/-- Inner body of both Newtonian loops: subtract G*m/r^3 times the
relative position from the particle's acceleration, r being the norm
of the relative position. -/
def gravKick (G m xb yb zb : ℝ) (p : Particle) : Particle :=
  let dx := p.x - xb
  let dy := p.y - yb
  let dz := p.z - zb
  let _r := Real.sqrt (dx * dx + dy * dy + dz * dz)
  let prefac := G * m / (_r * _r * _r)
  { p with ax := p.ax - prefac * dx, ay := p.ay - prefac * dy, az := p.az - prefac * dz }

/-- The sun-and-planets loop of rebx_ephemeris_forces: for each body
index below the bound, query the body provider and kick every
particle. -/
def newtonLoop (eF : ℤ → ℝ → EphemOut) (G t : ℝ) : ℕ → List Particle → List Particle
  | 0, ps => ps
  | n + 1, ps =>
      let st := eF (n : ℤ) t
      (newtonLoop eF G t n ps).map (gravKick G st.m st.x st.y st.z)

/-- The massive-asteroid loop of rebx_ephemeris_forces: each asteroid
position is translated to barycentric by adding the sun's position; a
fatal ast_ephem error (bad index) aborts the whole evaluation. -/
def astLoop (spkFn : ℤ → ℝ → Vec3) (G t xs ys zs : ℝ) :
    ℕ → List Particle → Option (List Particle)
  | 0, ps => some ps
  | n + 1, ps =>
      match astLoop spkFn G t xs ys zs n ps with
      | none => none
      | some ps2 =>
        match ast_ephem spkFn G (n : ℤ) t with
        | none => none
        | some st => some (ps2.map (gravKick G st.1 (st.2 0 + xs) (st.2 1 + ys) (st.2 2 + zs)))

/-- One pass of the relativistic fixed-point body: v = v_particle/(1-A)
followed by A = (0.5*|v|^2 + 3*mu/ri)/c^2 on the new v. -/
def grStep (pv : RVec3) (mu ri C2 : ℝ) (s : RVec3 × ℝ) : RVec3 × ℝ :=
  let v : RVec3 := ⟨pv.x / (1 - s.2), pv.y / (1 - s.2), pv.z / (1 - s.2)⟩
  (v, (0.5 * (v.x * v.x + v.y * v.y + v.z * v.z) + 3 * mu / ri) / C2)

/-- The early-exit test of the fixed-point loop.  The source computes
|v - old_v|^2 / |v|^2 < DBL_EPSILON^2 in doubles; when |v|^2 = 0 that
float division yields inf or NaN and the comparison is false, so the
faithful real-arithmetic form is |v - old_v|^2 < DBL_EPSILON^2 * |v|^2,
equivalent to the quotient form whenever |v|^2 > 0 and false when
|v|^2 = 0, exactly as in C. -/
def grConv (old nw : RVec3) : Prop :=
  (nw.x - old.x) * (nw.x - old.x) + (nw.y - old.y) * (nw.y - old.y) +
      (nw.z - old.z) * (nw.z - old.z) <
    DBL_EPSILON * DBL_EPSILON * (nw.x * nw.x + nw.y * nw.y + nw.z * nw.z)

instance (a b : RVec3) : Decidable (grConv a b) := by
  unfold grConv
  infer_instance

/-- The fixed-point loop of the relativistic corrector with its fuel
(the iteration budget).  Returns the final velocity iterate, the final
A, and whether the convergence test fired (false means the cap was
reached without convergence, which the source turns into a warning). -/
def grIter (pv : RVec3) (mu ri C2 : ℝ) : ℕ → RVec3 × ℝ → RVec3 × ℝ × Bool
  | 0, s => (s.1, s.2, false)
  | q + 1, s =>
      let s2 := grStep pv mu ri C2 s
      if grConv s.1 s2.1 then (s2.1, s2.2, true)
      else grIter pv mu ri C2 q s2

lemma grIter_succ (pv : RVec3) (mu ri C2 : ℝ) (q : ℕ) (s : RVec3 × ℝ) :
    grIter pv mu ri C2 (q + 1) s =
      if grConv s.1 (grStep pv mu ri C2 s).1
      then ((grStep pv mu ri C2 s).1, (grStep pv mu ri C2 s).2, true)
      else grIter pv mu ri C2 q (grStep pv mu ri C2 s) := rfl

/-- The acceleration increment B(1-A)r - A*a_newtonian - D*v added by
the relativistic corrector to one particle, computed from the final
iterate of the fixed-point loop run with the cap of 10 iterations. -/
def grTerm (mu C2 : ℝ) (p : Particle) : RVec3 :=
  let vi0 : RVec3 := ⟨p.vx, p.vy, p.vz⟩
  let vi02 := p.vx * p.vx + p.vy * p.vy + p.vz * p.vz
  let ri := Real.sqrt (p.x * p.x + p.y * p.y + p.z * p.z)
  let A0 := (0.5 * vi02 + 3 * mu / ri) / C2
  let res := grIter vi0 mu ri C2 10 (vi0, A0)
  let vi := res.1
  let A := res.2.1
  let vi2 := vi.x * vi.x + vi.y * vi.y + vi.z * vi.z
  let B := (mu / ri - 1.5 * vi2) * mu / (ri * ri * ri) / C2
  let rdotrdot := p.x * p.vx + p.y * p.vy + p.z * p.vz
  let vidotx := p.ax + B * p.x
  let vidoty := p.ay + B * p.y
  let vidotz := p.az + B * p.z
  let vdotvdot := vi.x * vidotx + vi.y * vidoty + vi.z * vidotz
  let D := (vdotvdot - 3 * mu / (ri * ri * ri) * rdotrdot) / C2
  ⟨B * (1 - A) * p.x - A * p.ax - D * vi.x,
   B * (1 - A) * p.y - A * p.ay - D * vi.y,
   B * (1 - A) * p.z - A * p.az - D * vi.z⟩

/-- The per-particle relativistic correction of rebx_ephemeris_forces:
add the grTerm increment to the particle's acceleration. -/
def grApply (mu C2 : ℝ) (p : Particle) : Particle :=
  let w := grTerm mu C2 p
  { p with ax := p.ax + w.x, ay := p.ay + w.y, az := p.az + w.z }

/-- Embedding of rebx_ephemeris_forces.  The parameter-store lookups
N_ephem, N_ast and c arrive as Option values (none models a null
pointer).  The body provider eF models ephem after initialization and
spkFn the opaque minor-body kernel.  The result none models a process
abort: dereferencing the unchecked null N_ast, or a fatal asteroid
index error. -/
def rebx_ephemeris_forces (eF : ℤ → ℝ → EphemOut) (spkFn : ℤ → ℝ → Vec3)
    (N_ephem N_ast : Option ℤ) (c : Option ℝ) (G t : ℝ) (particles : List Particle) :
    Option (List Particle) :=
  match N_ephem with
  | none => some particles
  | some nE =>
    match c with
    | none => some particles
    | some cc =>
      let C2 := cc * cc
      let _earth := eF 3 t
      let ps1 := newtonLoop eF G t nE.toNat particles
      let sun := eF 0 t
      match N_ast with
      | none => none
      | some nA =>
        match astLoop spkFn G t sun.x sun.y sun.z nA.toNat ps1 with
        | none => none
        | some ps2 =>
          let Msun : ℝ := 1
          let mu := G * Msun
          some (ps2.map (grApply mu C2))

/-- Constant body provider used by the end-to-end scenario: one body of
mass 1 at the barycenter, at rest. -/
def eF1 : ℤ → ℝ → EphemOut := fun _ _ => ⟨1, 0, 0, 0, 0, 0, 0⟩

/-- Trivial minor-body kernel used by the scenario (never consulted). -/
def spk1 : ℤ → ℝ → Vec3 := fun _ _ => vecpos_nul

/-- Test particle of the scenario: at rest at distance 1 on the x-axis
with zero accumulated acceleration. -/
def pOne : Particle := ⟨1, 0, 0, 0, 0, 0, 0, 0, 0⟩

/-- Generic concrete particle used by witnesses. -/
def pTest : Particle := ⟨1, 2, 3, 4, 5, 6, 7, 8, 9⟩

lemma grStep_zero_C2 (pv : RVec3) (mu ri : ℝ) : grStep pv mu ri 0 (pv, 0) = (pv, 0) := by
  simp [grStep]

lemma grIter_zero_C2_state (pv : RVec3) (mu ri : ℝ) : ∀ fuel : ℕ,
    (grIter pv mu ri 0 fuel (pv, 0)).1 = pv ∧ (grIter pv mu ri 0 fuel (pv, 0)).2.1 = 0 := by
  intro fuel
  induction fuel with
  | zero => exact ⟨rfl, rfl⟩
  | succ n ih =>
    rw [grIter_succ, grStep_zero_C2]
    dsimp only
    by_cases h : grConv pv pv
    · rw [if_pos h]
      exact ⟨rfl, rfl⟩
    · rw [if_neg h]
      exact ih

lemma grTerm_zero_C2 (mu : ℝ) (p : Particle) : grTerm mu 0 p = ⟨0, 0, 0⟩ := by
  have h := grIter_zero_C2_state ⟨p.vx, p.vy, p.vz⟩ mu
    (Real.sqrt (p.x * p.x + p.y * p.y + p.z * p.z)) 10
  simp only [grTerm, div_zero]
  rw [h.2]
  norm_num

lemma grApply_zero_C2 (mu : ℝ) (p : Particle) : grApply mu 0 p = p := by
  simp [grApply, grTerm_zero_C2]

/-- Claim C1 (code bug): the routine checks only two of the three
required parameters.  With N_ephem absent, or with c absent, it
returns with every particle untouched; but with N_ast alone absent the
asteroid loop bound dereferences the null parameter pointer and the
process crashes (modelled as none) instead of logging and skipping. -/
theorem ephemeris_forces_missing_param (eF : ℤ → ℝ → EphemOut) (spkFn : ℤ → ℝ → Vec3)
    (na : Option ℤ) (c0 : Option ℝ) (nE : ℤ) (cc G t : ℝ) (ps : List Particle) :
    rebx_ephemeris_forces eF spkFn none na c0 G t ps = some ps ∧
    rebx_ephemeris_forces eF spkFn (some nE) na none G t ps = some ps ∧
    rebx_ephemeris_forces eF spkFn (some nE) none (some cc) G t ps = none :=
  ⟨rfl, rfl, rfl⟩

/-- Claim C7: when the 1/c^2 factor is zero, the relativistic
correction term B(1-A)r - A*a_newtonian - D*v is the zero vector for
every particle state, so the accumulated Newtonian acceleration is
left unchanged. -/
theorem gr_correction_vanishes (mu C2 : ℝ) (p : Particle) (h : 1 / C2 = 0) :
    grTerm mu C2 p = ⟨0, 0, 0⟩ ∧ grApply mu C2 p = p := by
  have hc : C2 = 0 := by rwa [one_div, inv_eq_zero] at h
  subst hc
  exact ⟨grTerm_zero_C2 mu p, grApply_zero_C2 mu p⟩

/-- Witness for C7 at mu = 1, C2 = 0 and a concrete particle. -/
theorem gr_correction_vanishes_witness :
    grTerm 1 0 pTest = ⟨0, 0, 0⟩ ∧ grApply 1 0 pTest = pTest :=
  gr_correction_vanishes 1 0 pTest (by norm_num)

lemma grIter_char (pv : RVec3) (mu ri C2 : ℝ) : ∀ (fuel : ℕ) (s : RVec3 × ℝ),
    (∃ k, k < fuel ∧
      (∀ j, j < k → ¬ grConv ((grStep pv mu ri C2)^[j] s).1 ((grStep pv mu ri C2)^[j + 1] s).1) ∧
      grConv ((grStep pv mu ri C2)^[k] s).1 ((grStep pv mu ri C2)^[k + 1] s).1 ∧
      grIter pv mu ri C2 fuel s =
        (((grStep pv mu ri C2)^[k + 1] s).1, ((grStep pv mu ri C2)^[k + 1] s).2, true)) ∨
    ((∀ k, k < fuel → ¬ grConv ((grStep pv mu ri C2)^[k] s).1 ((grStep pv mu ri C2)^[k + 1] s).1) ∧
      grIter pv mu ri C2 fuel s =
        (((grStep pv mu ri C2)^[fuel] s).1, ((grStep pv mu ri C2)^[fuel] s).2, false)) := by
  intro fuel
  induction fuel with
  | zero =>
    intro s
    right
    exact ⟨fun k hk => absurd hk (Nat.not_lt_zero k), rfl⟩
  | succ n ih =>
    intro s
    by_cases h : grConv s.1 (grStep pv mu ri C2 s).1
    · left
      refine ⟨0, Nat.succ_pos n, fun j hj => absurd hj (Nat.not_lt_zero j), ?_, ?_⟩
      · simpa using h
      · rw [grIter_succ, if_pos h]
        simp
    · rcases ih (grStep pv mu ri C2 s) with ⟨k, hk, hmin, hcv, hout⟩ | ⟨hall, hout⟩
      · left
        refine ⟨k + 1, Nat.succ_lt_succ hk, ?_, ?_, ?_⟩
        · intro j hj
          cases j with
          | zero => simpa using h
          | succ j2 =>
            have hmj := hmin j2 (Nat.lt_of_succ_lt_succ hj)
            simpa [Function.iterate_succ_apply] using hmj
        · simpa [Function.iterate_succ_apply] using hcv
        · rw [grIter_succ, if_neg h, hout]
          simp [Function.iterate_succ_apply]
      · right
        refine ⟨?_, ?_⟩
        · intro k hk
          cases k with
          | zero => simpa using h
          | succ k2 =>
            have hak := hall k2 (Nat.lt_of_succ_lt_succ hk)
            simpa [Function.iterate_succ_apply] using hak
        · rw [grIter_succ, if_neg h, hout]
          simp [Function.iterate_succ_apply]

/-- Claim C6: for each particle the relativistic corrector runs the
update old_v = v; v = v_particle/(1-A); A = (0.5|v|^2 + 3 mu/r)/c^2 at
most 10 times, stopping early exactly at the first pass whose iterate
satisfies the source's test |v - old_v|^2/|v|^2 < DBL_EPSILON^2
(modelled by grConv, which like the C float division is false when
|v|^2 = 0); if no pass satisfies it the loop ends after 10 passes with
the converged flag false (the source then emits a non-fatal warning)
and the last iterate is the one used by the correction. -/
theorem gr_fixed_point_iteration (mu C2 : ℝ) (p : Particle) :
    (∃ k, k < 10 ∧
      (∀ j, j < k →
        ¬ grConv
          ((grStep ⟨p.vx, p.vy, p.vz⟩ mu (Real.sqrt (p.x * p.x + p.y * p.y + p.z * p.z)) C2)^[j]
            (⟨p.vx, p.vy, p.vz⟩,
              (0.5 * (p.vx * p.vx + p.vy * p.vy + p.vz * p.vz) +
                3 * mu / Real.sqrt (p.x * p.x + p.y * p.y + p.z * p.z)) / C2)).1
          ((grStep ⟨p.vx, p.vy, p.vz⟩ mu (Real.sqrt (p.x * p.x + p.y * p.y + p.z * p.z)) C2)^[j + 1]
            (⟨p.vx, p.vy, p.vz⟩,
              (0.5 * (p.vx * p.vx + p.vy * p.vy + p.vz * p.vz) +
                3 * mu / Real.sqrt (p.x * p.x + p.y * p.y + p.z * p.z)) / C2)).1) ∧
      grConv
        ((grStep ⟨p.vx, p.vy, p.vz⟩ mu (Real.sqrt (p.x * p.x + p.y * p.y + p.z * p.z)) C2)^[k]
          (⟨p.vx, p.vy, p.vz⟩,
            (0.5 * (p.vx * p.vx + p.vy * p.vy + p.vz * p.vz) +
              3 * mu / Real.sqrt (p.x * p.x + p.y * p.y + p.z * p.z)) / C2)).1
        ((grStep ⟨p.vx, p.vy, p.vz⟩ mu (Real.sqrt (p.x * p.x + p.y * p.y + p.z * p.z)) C2)^[k + 1]
          (⟨p.vx, p.vy, p.vz⟩,
            (0.5 * (p.vx * p.vx + p.vy * p.vy + p.vz * p.vz) +
              3 * mu / Real.sqrt (p.x * p.x + p.y * p.y + p.z * p.z)) / C2)).1 ∧
      grIter ⟨p.vx, p.vy, p.vz⟩ mu (Real.sqrt (p.x * p.x + p.y * p.y + p.z * p.z)) C2 10
        (⟨p.vx, p.vy, p.vz⟩,
          (0.5 * (p.vx * p.vx + p.vy * p.vy + p.vz * p.vz) +
            3 * mu / Real.sqrt (p.x * p.x + p.y * p.y + p.z * p.z)) / C2) =
        (((grStep ⟨p.vx, p.vy, p.vz⟩ mu (Real.sqrt (p.x * p.x + p.y * p.y + p.z * p.z)) C2)^[k + 1]
            (⟨p.vx, p.vy, p.vz⟩,
              (0.5 * (p.vx * p.vx + p.vy * p.vy + p.vz * p.vz) +
                3 * mu / Real.sqrt (p.x * p.x + p.y * p.y + p.z * p.z)) / C2)).1,
         ((grStep ⟨p.vx, p.vy, p.vz⟩ mu (Real.sqrt (p.x * p.x + p.y * p.y + p.z * p.z)) C2)^[k + 1]
            (⟨p.vx, p.vy, p.vz⟩,
              (0.5 * (p.vx * p.vx + p.vy * p.vy + p.vz * p.vz) +
                3 * mu / Real.sqrt (p.x * p.x + p.y * p.y + p.z * p.z)) / C2)).2,
         true)) ∨
    ((∀ k, k < 10 →
      ¬ grConv
        ((grStep ⟨p.vx, p.vy, p.vz⟩ mu (Real.sqrt (p.x * p.x + p.y * p.y + p.z * p.z)) C2)^[k]
          (⟨p.vx, p.vy, p.vz⟩,
            (0.5 * (p.vx * p.vx + p.vy * p.vy + p.vz * p.vz) +
              3 * mu / Real.sqrt (p.x * p.x + p.y * p.y + p.z * p.z)) / C2)).1
        ((grStep ⟨p.vx, p.vy, p.vz⟩ mu (Real.sqrt (p.x * p.x + p.y * p.y + p.z * p.z)) C2)^[k + 1]
          (⟨p.vx, p.vy, p.vz⟩,
            (0.5 * (p.vx * p.vx + p.vy * p.vy + p.vz * p.vz) +
              3 * mu / Real.sqrt (p.x * p.x + p.y * p.y + p.z * p.z)) / C2)).1) ∧
      grIter ⟨p.vx, p.vy, p.vz⟩ mu (Real.sqrt (p.x * p.x + p.y * p.y + p.z * p.z)) C2 10
        (⟨p.vx, p.vy, p.vz⟩,
          (0.5 * (p.vx * p.vx + p.vy * p.vy + p.vz * p.vz) +
            3 * mu / Real.sqrt (p.x * p.x + p.y * p.y + p.z * p.z)) / C2) =
        (((grStep ⟨p.vx, p.vy, p.vz⟩ mu (Real.sqrt (p.x * p.x + p.y * p.y + p.z * p.z)) C2)^[10]
            (⟨p.vx, p.vy, p.vz⟩,
              (0.5 * (p.vx * p.vx + p.vy * p.vy + p.vz * p.vz) +
                3 * mu / Real.sqrt (p.x * p.x + p.y * p.y + p.z * p.z)) / C2)).1,
         ((grStep ⟨p.vx, p.vy, p.vz⟩ mu (Real.sqrt (p.x * p.x + p.y * p.y + p.z * p.z)) C2)^[10]
            (⟨p.vx, p.vy, p.vz⟩,
              (0.5 * (p.vx * p.vx + p.vy * p.vy + p.vz * p.vz) +
                3 * mu / Real.sqrt (p.x * p.x + p.y * p.y + p.z * p.z)) / C2)).2,
         false)) :=
  grIter_char ⟨p.vx, p.vy, p.vz⟩ mu (Real.sqrt (p.x * p.x + p.y * p.y + p.z * p.z)) C2 10
    (⟨p.vx, p.vy, p.vz⟩,
      (0.5 * (p.vx * p.vx + p.vy * p.vy + p.vz * p.vz) +
        3 * mu / Real.sqrt (p.x * p.x + p.y * p.y + p.z * p.z)) / C2)

/-- Witness for C6: for the resting test particle the convergence test
is false on every pass (|v|^2 = 0, exactly as for the C float
division), so the loop exhausts all 10 iterations and returns the last
iterate with the converged flag false, the case where the source emits
its non-convergence warning. -/
theorem gr_fixed_point_iteration_witness :
    grIter ⟨pOne.vx, pOne.vy, pOne.vz⟩ 0
      (Real.sqrt (pOne.x * pOne.x + pOne.y * pOne.y + pOne.z * pOne.z)) 1 10
      (⟨pOne.vx, pOne.vy, pOne.vz⟩,
        (0.5 * (pOne.vx * pOne.vx + pOne.vy * pOne.vy + pOne.vz * pOne.vz) +
          3 * 0 / Real.sqrt (pOne.x * pOne.x + pOne.y * pOne.y + pOne.z * pOne.z)) / 1) =
      (⟨0, 0, 0⟩, 0, false) := by
  have hs0 : grStep ⟨pOne.vx, pOne.vy, pOne.vz⟩ 0
      (Real.sqrt (pOne.x * pOne.x + pOne.y * pOne.y + pOne.z * pOne.z)) 1
      (⟨pOne.vx, pOne.vy, pOne.vz⟩,
        (0.5 * (pOne.vx * pOne.vx + pOne.vy * pOne.vy + pOne.vz * pOne.vz) +
          3 * 0 / Real.sqrt (pOne.x * pOne.x + pOne.y * pOne.y + pOne.z * pOne.z)) / 1) =
      (⟨0, 0, 0⟩, 0) := by
    simp [grStep, pOne]
  have hfix : grStep ⟨pOne.vx, pOne.vy, pOne.vz⟩ 0
      (Real.sqrt (pOne.x * pOne.x + pOne.y * pOne.y + pOne.z * pOne.z)) 1
      (⟨0, 0, 0⟩, 0) = (⟨0, 0, 0⟩, 0) := by
    simp [grStep, pOne]
  have hiter : ∀ k : ℕ,
      (grStep ⟨pOne.vx, pOne.vy, pOne.vz⟩ 0
        (Real.sqrt (pOne.x * pOne.x + pOne.y * pOne.y + pOne.z * pOne.z)) 1)^[k + 1]
        (⟨pOne.vx, pOne.vy, pOne.vz⟩,
          (0.5 * (pOne.vx * pOne.vx + pOne.vy * pOne.vy + pOne.vz * pOne.vz) +
            3 * 0 / Real.sqrt (pOne.x * pOne.x + pOne.y * pOne.y + pOne.z * pOne.z)) / 1) =
        (⟨0, 0, 0⟩, 0) := by
    intro k
    rw [Function.iterate_succ_apply, hs0]
    exact Function.iterate_fixed hfix k
  have hnoconv : ∀ old : RVec3, ¬ grConv old ⟨0, 0, 0⟩ := by
    intro old
    simp only [grConv]
    push_neg
    nlinarith [sq_nonneg old.x, sq_nonneg old.y, sq_nonneg old.z]
  rcases gr_fixed_point_iteration 0 1 pOne with ⟨k, hk, hmin, hcv, hout⟩ | ⟨hall, hout⟩
  · rw [hiter k] at hcv
    exact absurd hcv (hnoconv _)
  · rw [hout, show (10 : ℕ) = 9 + 1 from rfl, hiter 9]

/-- Claim C2: the sun-and-planets loop adds exactly -G*m_i*dr/|dr|^3 to
every particle's acceleration for each of the first N_ephem bodies,
with dr the particle position minus the body position, leaving
positions and velocities untouched; and in the end-to-end scenario of
one body of mass 1 at the barycenter with G = 1 (GM = 1), a test
particle at rest at distance 1 on the x-axis, N_ephem = 1, no
asteroids, and the relativistic 1/c^2 factor zero, the accumulated
acceleration is (-1, 0, 0) and the correction adds (0, 0, 0). -/
theorem newtonian_accumulation (eF : ℤ → ℝ → EphemOut) (G t : ℝ) (nE : ℕ)
    (ps : List Particle) (j : ℕ) (p : Particle) (hp : ps.get? j = some p) :
    (newtonLoop eF G t nE ps).get? j = some
      ⟨p.x, p.y, p.z, p.vx, p.vy, p.vz,
       p.ax + ∑ i in Finset.range nE,
         -(G * (eF (i : ℤ) t).m * (p.x - (eF (i : ℤ) t).x) /
           Real.sqrt ((p.x - (eF (i : ℤ) t).x) * (p.x - (eF (i : ℤ) t).x) +
             (p.y - (eF (i : ℤ) t).y) * (p.y - (eF (i : ℤ) t).y) +
             (p.z - (eF (i : ℤ) t).z) * (p.z - (eF (i : ℤ) t).z)) ^ 3),
       p.ay + ∑ i in Finset.range nE,
         -(G * (eF (i : ℤ) t).m * (p.y - (eF (i : ℤ) t).y) /
           Real.sqrt ((p.x - (eF (i : ℤ) t).x) * (p.x - (eF (i : ℤ) t).x) +
             (p.y - (eF (i : ℤ) t).y) * (p.y - (eF (i : ℤ) t).y) +
             (p.z - (eF (i : ℤ) t).z) * (p.z - (eF (i : ℤ) t).z)) ^ 3),
       p.az + ∑ i in Finset.range nE,
         -(G * (eF (i : ℤ) t).m * (p.z - (eF (i : ℤ) t).z) /
           Real.sqrt ((p.x - (eF (i : ℤ) t).x) * (p.x - (eF (i : ℤ) t).x) +
             (p.y - (eF (i : ℤ) t).y) * (p.y - (eF (i : ℤ) t).y) +
             (p.z - (eF (i : ℤ) t).z) * (p.z - (eF (i : ℤ) t).z)) ^ 3)⟩ ∧
    rebx_ephemeris_forces eF1 spk1 (some 1) (some 0) (some 0) 1 0 [pOne] =
      some [⟨1, 0, 0, 0, 0, 0, -1, 0, 0⟩] := by
  constructor
  · induction nE with
    | zero =>
      simp only [newtonLoop, hp, Finset.sum_range_zero, add_zero]
    | succ n ih =>
      rw [newtonLoop, List.get?_map, ih]
      simp only [Option.map_some', gravKick, Option.some.injEq, Particle.mk.injEq]
      refine ⟨trivial, trivial, trivial, trivial, trivial, trivial, ?_, ?_, ?_⟩ <;>
      · rw [Finset.sum_range_succ]
        ring
  · have hN : newtonLoop eF1 1 0 ((1 : ℤ).toNat) [pOne] = [⟨1, 0, 0, 0, 0, 0, -1, 0, 0⟩] := by
      rw [show ((1 : ℤ).toNat) = 0 + 1 from rfl]
      simp only [newtonLoop, List.map, eF1, pOne, gravKick]
      norm_num
    have hA : astLoop spk1 1 0 (eF1 0 0).x (eF1 0 0).y (eF1 0 0).z ((0 : ℤ).toNat)
        [⟨1, 0, 0, 0, 0, 0, -1, 0, 0⟩] = some [⟨1, 0, 0, 0, 0, 0, -1, 0, 0⟩] := rfl
    have hG : grApply (1 * 1) (0 * 0) ⟨1, 0, 0, 0, 0, 0, -1, 0, 0⟩ =
        ⟨1, 0, 0, 0, 0, 0, -1, 0, 0⟩ := by
      rw [show ((0 : ℝ) * 0) = 0 by norm_num]
      exact grApply_zero_C2 _ _
    simp only [rebx_ephemeris_forces, hN, hA, List.map, hG]

/-- Witness for C2 at the scenario inputs: the single-body loop output
at index 0. -/
theorem newtonian_accumulation_witness :
    (newtonLoop eF1 1 0 1 [pOne]).get? 0 = some
      ⟨pOne.x, pOne.y, pOne.z, pOne.vx, pOne.vy, pOne.vz,
       pOne.ax + ∑ i in Finset.range 1,
         -(1 * (eF1 (i : ℤ) 0).m * (pOne.x - (eF1 (i : ℤ) 0).x) /
           Real.sqrt ((pOne.x - (eF1 (i : ℤ) 0).x) * (pOne.x - (eF1 (i : ℤ) 0).x) +
             (pOne.y - (eF1 (i : ℤ) 0).y) * (pOne.y - (eF1 (i : ℤ) 0).y) +
             (pOne.z - (eF1 (i : ℤ) 0).z) * (pOne.z - (eF1 (i : ℤ) 0).z)) ^ 3),
       pOne.ay + ∑ i in Finset.range 1,
         -(1 * (eF1 (i : ℤ) 0).m * (pOne.y - (eF1 (i : ℤ) 0).y) /
           Real.sqrt ((pOne.x - (eF1 (i : ℤ) 0).x) * (pOne.x - (eF1 (i : ℤ) 0).x) +
             (pOne.y - (eF1 (i : ℤ) 0).y) * (pOne.y - (eF1 (i : ℤ) 0).y) +
             (pOne.z - (eF1 (i : ℤ) 0).z) * (pOne.z - (eF1 (i : ℤ) 0).z)) ^ 3),
       pOne.az + ∑ i in Finset.range 1,
         -(1 * (eF1 (i : ℤ) 0).m * (pOne.z - (eF1 (i : ℤ) 0).z) /
           Real.sqrt ((pOne.x - (eF1 (i : ℤ) 0).x) * (pOne.x - (eF1 (i : ℤ) 0).x) +
             (pOne.y - (eF1 (i : ℤ) 0).y) * (pOne.y - (eF1 (i : ℤ) 0).y) +
             (pOne.z - (eF1 (i : ℤ) 0).z) * (pOne.z - (eF1 (i : ℤ) 0).z)) ^ 3)⟩ :=
  (newtonian_accumulation eF1 1 0 1 [pOne] 0 pOne rfl).1

end

end EphemForces
